import Mathlib

/-!
Shallow embedding of the gtemp tool (src/src/gtemp/__init__.py): constants,
the template validator, the template renderer, and the orchestrator `main`.
File names and contents are Lean `String`s; Python string and `pathlib`
operations used by the source are modelled character-list by character-list.
-/

namespace GTemp

/-- Suffix of rendered output files (source constant GCODE_SUFFIX). -/
def GCODE_SUFFIX : String := ".gcode"

/-- Suffix identifying template files (source constant GCODE_TEMPLATE_SUFFIX). -/
def GCODE_TEMPLATE_SUFFIX : String := ".gtemplate"

/-- The nozzle-temperature G-code command (source constant NOZZLE_TEMP_CGODE_COMMAND). -/
def NOZZLE_TEMP_CGODE_COMMAND : String := "M104"

/-- The placeholder token (source constant NOZZLE_TEMP_TEMPLATE_TEXT). -/
def NOZZLE_TEMP_TEMPLATE_TEXT : String := "##NOZZLETEMP##"

/-- The preset table NOZZLE_TEMP_PRESETS, as `dict.get`: `none` for an unknown key. -/
def NOZZLE_TEMP_PRESETS (material : String) : Option (List Int) :=
  if material = "PLA" then
    some [230, 225, 220, 215, 210, 205, 200, 195, 190]
  else if material = "PETG" then
    some [260, 255, 250, 245, 240, 235, 230, 225, 220, 215, 210]
  else if material = "PETG-CF" then
    some [260, 255, 250, 245, 240, 235, 230, 225, 220, 215, 210]
  else
    none

/-- Fuelled scanner behind `replaceChars`: each step consumes one unit of fuel
and at least one character, so fuel equal to the input length always
suffices. -/
def replaceCharsAux (pat rep : List Char) : Nat → List Char → List Char
  | 0, l => l
  | _ + 1, [] => []
  | fuel + 1, c :: cs =>
    if pat.isEmpty then c :: cs
    else if pat.isPrefixOf (c :: cs) then
      rep ++ replaceCharsAux pat rep fuel (cs.drop (pat.length - 1))
    else
      c :: replaceCharsAux pat rep fuel cs

/-- Python `str.replace` on character lists: scan left to right, replacing each
non-overlapping occurrence of `pat` by `rep` and resuming after the replaced
segment. The source only ever replaces the non-empty placeholder token; for an
empty `pat` this model returns the input unchanged. -/
def replaceChars (pat rep : List Char) (s : List Char) : List Char :=
  replaceCharsAux pat rep s.length s

/-- Python `str.replace`. -/
def pyReplace (s pat rep : String) : String :=
  String.mk (replaceChars pat.data rep.data s.data)

/-- Occurrence test on character lists (Python `pat in s`). -/
def containsChars (pat : List Char) : List Char → Bool
  | [] => pat.isEmpty
  | c :: cs => pat.isPrefixOf (c :: cs) || containsChars pat cs

/-- Python substring membership `pat in s`. -/
def pyContains (s pat : String) : Bool :=
  containsChars pat.data s.data

/-- Index of the last occurrence of a dot (Python `str.rfind`, returning `none`
instead of -1). -/
def lastDotIndex : List Char → Option Nat
  | [] => none
  | c :: cs =>
    match lastDotIndex cs with
    | some i => some (i + 1)
    | none => if c = '.' then some 0 else none

/-- Python `PurePath.stem` of a file name: the name without its suffix, where
the suffix starts at the last dot provided that dot is neither the first nor
the last character. -/
def pyStem (n : String) : String :=
  match lastDotIndex n.data with
  | some i => if 0 < i ∧ i < n.data.length - 1 then String.mk (n.data.take i) else n
  | none => n

/-- Python `PurePath.suffix` of a file name. -/
def pySuffix (n : String) : String :=
  match lastDotIndex n.data with
  | some i => if 0 < i ∧ i < n.data.length - 1 then String.mk (n.data.drop i) else ""
  | none => ""

/-- Python `PurePath.with_suffix` restricted to the final path component:
drop the current suffix when there is one and append the new suffix. The
source applies it with the fixed, valid argument GCODE_SUFFIX (src line 117). -/
def pyWithSuffixName (n suf : String) : String :=
  let old := pySuffix n
  if old = "" then n ++ suf
  else String.mk (n.data.take (n.data.length - old.data.length)) ++ suf

/-- Python `str.lower`, for the character range the tool compares
(the confirmation gate's ASCII inputs). -/
def pyLower (s : String) : String :=
  String.mk (s.data.map Char.toLower)

/-- A template candidate: the file's name (final path component) and its text
content. `main` discovers candidates by globbing the templates directory, so
their names end in GCODE_TEMPLATE_SUFFIX and carry no path separator. -/
structure GcodeTemplate where
  name : String
  content : String
deriving DecidableEq

/-- Source `validate_gcode_template_filenames` (src lines 80 to 85): names of
the candidates whose file name lacks the placeholder token, in input order. -/
def validate_gcode_template_filenames (gcode_templates : List GcodeTemplate) : List String :=
  (gcode_templates.filter
    (fun t => !pyContains t.name NOZZLE_TEMP_TEMPLATE_TEXT)).map (fun t => t.name)

/-- Source `validate_gcode_template_contents` (src lines 88 to 94): names of
the candidates whose content lacks the substring "M104 ##NOZZLETEMP##",
in input order. -/
def validate_gcode_template_contents (gcode_templates : List GcodeTemplate) : List String :=
  (gcode_templates.filter
    (fun t => !pyContains t.content
      (NOZZLE_TEMP_CGODE_COMMAND ++ " " ++ NOZZLE_TEMP_TEMPLATE_TEXT))).map (fun t => t.name)

/-- Source `validate_gcode_templates` (src lines 57 to 77): true exactly when
both violation lists are empty (the printing of the lists is observable
through the two list functions above). -/
def validate_gcode_templates (gcode_templates : List GcodeTemplate) : Bool :=
  (validate_gcode_template_filenames gcode_templates).isEmpty &&
  (validate_gcode_template_contents gcode_templates).isEmpty

/-- Rendered file name for one (template name, temperature) pair (src lines
111 to 117): the stem with the token replaced by the temperature followed by
`C`, then the suffix forced to GCODE_SUFFIX. -/
def renderedFilename (name : String) (nozzle_temp : Int) : String :=
  pyWithSuffixName
    (pyReplace (pyStem name) NOZZLE_TEMP_TEMPLATE_TEXT (toString nozzle_temp ++ "C"))
    GCODE_SUFFIX

/-- Rendered content for one (template content, temperature) pair (src lines
107 to 109): every token occurrence replaced by `S` followed by the
temperature. -/
def renderedContent (content : String) (nozzle_temp : Int) : String :=
  pyReplace content NOZZLE_TEMP_TEMPLATE_TEXT ("S" ++ toString nozzle_temp)

/-- The (file name, content) pairs written by `render_gcode_templates`
(src lines 102 to 121), in write order: candidates outer, temperatures inner. -/
def renderOutputs (gcode_templates : List GcodeTemplate) (nozzle_temps : List Int) :
    List (String × String) :=
  gcode_templates.flatMap (fun t =>
    nozzle_temps.map (fun temp => (renderedFilename t.name temp, renderedContent t.content temp)))

/-- The count printed before writing (src line 108). -/
def expected_render_count (gcode_templates : List GcodeTemplate) (nozzle_temps : List Int) : Nat :=
  gcode_templates.length * nozzle_temps.length

/-- A file store keyed by path. `Path.write_text` overwrites, so a write is a
pointwise update; writes are applied in sequence order. -/
def applyWrites (fs : String → Option String) (writes : List (String × String)) :
    String → Option String :=
  writes.foldl (fun f w => fun p => if p = w.1 then some w.2 else f p) fs

/-- The write operations of one render, with full paths `output / name`
(src line 116 composes the destination path directly under `output`). -/
def renderWrites (output : String) (gcode_templates : List GcodeTemplate)
    (nozzle_temps : List Int) : List (String × String) :=
  (renderOutputs gcode_templates nozzle_temps).map (fun o => (output ++ "/" ++ o.1, o.2))

/-- Effect of `render_gcode_templates` on the file store. -/
def render_gcode_templates (gcode_templates : List GcodeTemplate) (nozzle_temps : List Int)
    (output : String) (fs : String → Option String) : String → Option String :=
  applyWrites fs (renderWrites output gcode_templates nozzle_temps)

/-- A Python value as it appears on the parsed-argument namespace. -/
inductive PyVal where
  | pynone : PyVal
  | str : String → PyVal
  | intList : List Int → PyVal
deriving DecidableEq

/-- The argparse namespace for the temperature options: argparse derives each
dest from the long option name with dashes turned to underscores, so
`--temps-preset` and `--temps-custom` (src lines 184 to 198) are stored under
`temps_preset` and `temps_custom`. -/
def argparseNamespace (preset : Option String) (custom : Option (List Int)) :
    List (String × PyVal) :=
  [("temps_preset", match preset with | some s => PyVal.str s | none => PyVal.pynone),
   ("temps_custom", match custom with | some l => PyVal.intList l | none => PyVal.pynone)]

/-- Python attribute access on a namespace: an absent attribute raises
AttributeError. -/
def getattr (ns : List (String × PyVal)) (attr : String) : Except String PyVal :=
  match ns.lookup attr with
  | some v => Except.ok v
  | none => Except.error ("AttributeError: " ++ attr)

/-- Python truthiness of the namespace values involved. -/
def pyTruthy : PyVal → Bool
  | PyVal.pynone => false
  | PyVal.str s => !(s = "")
  | PyVal.intList l => !(l = [])

/-- `NOZZLE_TEMP_PRESETS.get(x)`: a string key is looked up, any other value
(including None) yields None. -/
def presetsGet : PyVal → PyVal
  | PyVal.str s =>
    match NOZZLE_TEMP_PRESETS s with
    | some l => PyVal.intList l
    | none => PyVal.pynone
  | _ => PyVal.pynone

/-- The temperature-source resolution expression of `main` exactly as written
(src lines 227 to 231): it reads the attributes `nozzle_temps_custom` and, in
the fallback branch, `nozzle_temps_preset`. -/
def main_resolve_nozzle_temps (ns : List (String × PyVal)) : Except String PyVal := do
  let c ← getattr ns "nozzle_temps_custom"
  if pyTruthy c then
    pure c
  else do
    let p ← getattr ns "nozzle_temps_preset"
    pure (presetsGet p)

/-- The value the resolution expression (src lines 227 to 231) computes once
the custom and preset fields are identified with the argparse dests
temps_custom and temps_preset: the source reads them under the names
nozzle_temps_custom and nozzle_temps_preset, which the namespace lacks (see
`main_resolve_nozzle_temps`), and the spec directs treating the two namings
as the same logical field. -/
def resolved_nozzle_temps (temps_custom : Option (List Int)) (temps_preset : Option String) :
    Option (List Int) :=
  if temps_custom.getD [] ≠ [] then temps_custom
  else temps_preset.bind NOZZLE_TEMP_PRESETS

/-- The confirmation gate's affirmative set (src line 242). -/
def AFFIRMATIVE_INPUTS : List String := ["", " ", "yes", "y"]

/-- Outcome of one run of `main` past argument parsing. -/
inductive RunOutcome where
  | valueError : RunOutcome
  | aborted : RunOutcome
  | validationFailed : List String → List String → RunOutcome
  | completed : List (String × String) → RunOutcome
deriving DecidableEq

/-- `main` from the resolved temperature value on (src lines 233 to 251):
the None guard at lines 233 to 234 (raising ValueError before the glob at
line 236), the confirmation gate at line 242 comparing the lowered input
with the affirmative set, the validation gate at lines 246 to 247, then
rendering at line 249. The discovered candidates and the interactive input
are parameters; a completed run carries its (name, content) writes. -/
def main_after_resolution (nozzle_temps : Option (List Int))
    (gcode_templates : List GcodeTemplate) (confirm_input : String) : RunOutcome :=
  match nozzle_temps with
  | none => RunOutcome.valueError
  | some temps =>
    if !(AFFIRMATIVE_INPUTS.contains (pyLower confirm_input)) then
      RunOutcome.aborted
    else if !(validate_gcode_templates gcode_templates) then
      RunOutcome.validationFailed
        (validate_gcode_template_filenames gcode_templates)
        (validate_gcode_template_contents gcode_templates)
    else
      RunOutcome.completed (renderOutputs gcode_templates temps)

/-- Files written by a run: only a completed run writes. -/
def outcomeWrites : RunOutcome → List (String × String)
  | RunOutcome.completed ws => ws
  | _ => []

/-- Process exit signal of a run: 0 on completion (src line 251), 1 on abort
(line 244) or validation failure (line 247); an uncaught ValueError also ends
the process unsuccessfully. -/
def outcomeExitCode : RunOutcome → Int
  | RunOutcome.completed _ => 0
  | _ => 1

/-- True when the run got past the confirmation gate (reached validation). -/
def proceedsToValidation : RunOutcome → Bool
  | RunOutcome.validationFailed _ _ => true
  | RunOutcome.completed _ => true
  | _ => false

/-- The last value written to path `p` by a write sequence, if any: the
observable effect of overwrite semantics. -/
def lastWrite (writes : List (String × String)) (p : String) : Option String :=
  writes.foldl (fun acc w => if p = w.1 then some w.2 else acc) none

/-! Helper lemmas about the embedded Python operations. -/

theorem containsChars_eq_true_iff (pat l : List Char) :
    containsChars pat l = true ↔ pat <:+: l := by
  induction l with
  | nil =>
    simp [containsChars, List.isEmpty_iff, List.infix_nil]
  | cons c cs ih =>
    simp [containsChars, List.isPrefixOf_iff_prefix, ih, List.infix_cons_iff]

theorem pyContains_eq_true_iff (s pat : String) :
    pyContains s pat = true ↔ pat.data <:+: s.data :=
  containsChars_eq_true_iff pat.data s.data

theorem foldl_write_eq (writes : List (String × String)) (p : String) (init : Option String) :
    writes.foldl (fun acc w => if p = w.1 then some w.2 else acc) init =
      (lastWrite writes p <|> init) := by
  induction writes generalizing init with
  | nil => simp [lastWrite]
  | cons w ws ih =>
    have h2 : lastWrite (w :: ws) p =
        List.foldl (fun acc x => if p = x.1 then some x.2 else acc)
          (if p = w.1 then some w.2 else none) ws := rfl
    rw [List.foldl_cons, ih, h2, ih]
    by_cases hp : p = w.1 <;> cases h : lastWrite ws p <;> simp [hp, h]

theorem applyWrites_apply (fs : String → Option String) (writes : List (String × String))
    (p : String) : applyWrites fs writes p = (lastWrite writes p <|> fs p) := by
  induction writes generalizing fs with
  | nil => simp [applyWrites, lastWrite]
  | cons w ws ih =>
    have h1 : applyWrites fs (w :: ws) p =
        applyWrites (fun q => if q = w.1 then some w.2 else fs q) ws p := rfl
    have h2 : lastWrite (w :: ws) p =
        List.foldl (fun acc x => if p = x.1 then some x.2 else acc)
          (if p = w.1 then some w.2 else none) ws := rfl
    rw [h1, ih, h2, foldl_write_eq]
    by_cases hp : p = w.1 <;> cases h : lastWrite ws p <;> simp [hp, h]

theorem lastWrite_eq_none (writes : List (String × String)) (p : String)
    (h : ∀ w ∈ writes, p ≠ w.1) : lastWrite writes p = none := by
  induction writes with
  | nil => rfl
  | cons w ws ih =>
    have h2 : lastWrite (w :: ws) p =
        List.foldl (fun acc x => if p = x.1 then some x.2 else acc)
          (if p = w.1 then some w.2 else none) ws := rfl
    rw [h2, foldl_write_eq, if_neg (h w (by simp)), ih (fun x hx => h x (by simp [hx]))]
    rfl

theorem applyWrites_not_written (fs : String → Option String)
    (writes : List (String × String)) (p : String) (h : ∀ w ∈ writes, p ≠ w.1) :
    applyWrites fs writes p = fs p := by
  rw [applyWrites_apply, lastWrite_eq_none writes p h]
  rfl

theorem mem_replaceCharsAux (pat rep : List Char) (fuel : Nat) (l : List Char) (c : Char)
    (h : c ∈ replaceCharsAux pat rep fuel l) : c ∈ l ∨ c ∈ rep := by
  induction fuel generalizing l with
  | zero => exact Or.inl h
  | succ fuel ih =>
    cases l with
    | nil => exact Or.inl h
    | cons a as =>
      by_cases he : pat.isEmpty
      · rw [replaceCharsAux, if_pos he] at h
        exact Or.inl h
      · by_cases hp : pat.isPrefixOf (a :: as)
        · rw [replaceCharsAux, if_neg he, if_pos hp] at h
          rcases List.mem_append.1 h with hc | hc
          · exact Or.inr hc
          · rcases ih (as.drop (pat.length - 1)) hc with hc' | hc'
            · exact Or.inl (List.mem_cons_of_mem a (List.drop_subset _ as hc'))
            · exact Or.inr hc'
        · rw [replaceCharsAux, if_neg he, if_neg hp] at h
          rcases List.mem_cons.1 h with hc | hc
          · exact Or.inl (hc ▸ List.mem_cons_self a as)
          · rcases ih as hc with hc' | hc'
            · exact Or.inl (List.mem_cons_of_mem a hc')
            · exact Or.inr hc'

theorem mem_pyReplace (s pat rep : String) (c : Char) (h : c ∈ (pyReplace s pat rep).data) :
    c ∈ s.data ∨ c ∈ rep.data :=
  mem_replaceCharsAux pat.data rep.data s.data.length s.data c h

theorem pyStem_data_subset (n : String) : (pyStem n).data ⊆ n.data := by
  unfold pyStem
  split
  · split
    · exact List.take_subset _ _
    · exact fun c hc => hc
  · exact fun c hc => hc

theorem pyWithSuffixName_decompose (n suf : String) :
    ∃ pre : List Char, (pyWithSuffixName n suf).data = pre ++ suf.data ∧ pre ⊆ n.data := by
  unfold pyWithSuffixName
  by_cases h : pySuffix n = ""
  · exact ⟨n.data, by simp [h, String.data_append], fun c hc => hc⟩
  · refine ⟨n.data.take (n.data.length - (pySuffix n).data.length), ?_, List.take_subset _ _⟩
    simp [h, String.data_append]

theorem gcode_suffix_of_withSuffix (n : String) :
    GCODE_SUFFIX.data <:+ (pyWithSuffixName n GCODE_SUFFIX).data := by
  obtain ⟨pre, hpre, -⟩ := pyWithSuffixName_decompose n GCODE_SUFFIX
  rw [hpre]
  exact List.suffix_append pre GCODE_SUFFIX.data

theorem digitChar_ne_slash (n : Nat) : Nat.digitChar n ≠ '/' := by
  match n with
  | 0 | 1 | 2 | 3 | 4 | 5 | 6 | 7 | 8 | 9 | 10 | 11 | 12 | 13 | 14 | 15 => decide
  | m + 16 =>
    unfold Nat.digitChar
    repeat rw [if_neg (by omega)]
    decide

theorem toDigitsCore_ne_slash (b fuel n : Nat) (ds : List Char)
    (hds : ∀ c ∈ ds, c ≠ '/') : ∀ c ∈ Nat.toDigitsCore b fuel n ds, c ≠ '/' := by
  induction fuel generalizing n ds with
  | zero => simpa [Nat.toDigitsCore] using hds
  | succ fuel ih =>
    intro c hc
    rw [Nat.toDigitsCore] at hc
    by_cases hz : n / b = 0
    · simp only [hz, if_pos rfl] at hc
      rcases List.mem_cons.1 hc with h | h
      · exact h ▸ digitChar_ne_slash (n % b)
      · exact hds c h
    · simp only [if_neg hz] at hc
      refine ih (n / b) (Nat.digitChar (n % b) :: ds) ?_ c hc
      intro x hx
      rcases List.mem_cons.1 hx with h | h
      · exact h ▸ digitChar_ne_slash (n % b)
      · exact hds x h

theorem natRepr_ne_slash (n : Nat) : ∀ c ∈ (Nat.repr n).data, c ≠ '/' := by
  intro c hc
  exact toDigitsCore_ne_slash 10 (n + 1) n [] (by simp) c hc

theorem intToString_ne_slash (i : Int) : ∀ c ∈ (toString i).data, c ≠ '/' := by
  intro c hc
  cases i with
  | ofNat m => exact natRepr_ne_slash m c hc
  | negSucc m =>
    have hd : (toString (Int.negSucc m)).data = '-' :: (Nat.repr (m + 1)).data := by
      show (("-" : String) ++ Nat.repr (m + 1)).data = _
      rw [String.data_append]
      rfl
    rw [hd] at hc
    rcases List.mem_cons.1 hc with h | h
    · simp [h]
    · exact natRepr_ne_slash (m + 1) c h

theorem affirmative_contains_iff (s : String) :
    AFFIRMATIVE_INPUTS.contains s = true ↔ s ∈ AFFIRMATIVE_INPUTS :=
  List.elem_iff

theorem main_gate_abort (temps : List Int) (cands : List GcodeTemplate) (s : String)
    (h : pyLower s ∉ AFFIRMATIVE_INPUTS) :
    main_after_resolution (some temps) cands s = RunOutcome.aborted := by
  have hc : AFFIRMATIVE_INPUTS.contains (pyLower s) = false := by
    cases hb : AFFIRMATIVE_INPUTS.contains (pyLower s)
    · rfl
    · exact absurd ((affirmative_contains_iff _).1 hb) h
  unfold main_after_resolution
  rw [hc]
  rfl

theorem main_gate_validation_failed (temps : List Int) (cands : List GcodeTemplate) (s : String)
    (h : pyLower s ∈ AFFIRMATIVE_INPUTS) (hv : validate_gcode_templates cands = false) :
    main_after_resolution (some temps) cands s =
      RunOutcome.validationFailed (validate_gcode_template_filenames cands)
        (validate_gcode_template_contents cands) := by
  have hc : AFFIRMATIVE_INPUTS.contains (pyLower s) = true :=
    (affirmative_contains_iff (pyLower s)).2 h
  unfold main_after_resolution
  rw [hc, hv]
  rfl

theorem main_gate_render (temps : List Int) (cands : List GcodeTemplate) (s : String)
    (h : pyLower s ∈ AFFIRMATIVE_INPUTS) (hv : validate_gcode_templates cands = true) :
    main_after_resolution (some temps) cands s =
      RunOutcome.completed (renderOutputs cands temps) := by
  have hc : AFFIRMATIVE_INPUTS.contains (pyLower s) = true :=
    (affirmative_contains_iff (pyLower s)).2 h
  unfold main_after_resolution
  rw [hc, hv]
  rfl

/-! The claims. -/

/-- C3: the claim says the orchestrator uses a supplied custom temperature
list verbatim and otherwise looks the chosen preset up in the preset table.
The code cannot do either: the resolution expression reads the attributes
`nozzle_temps_custom` and `nozzle_temps_preset`, but argparse stores the
parsed values under `temps_custom` and `temps_preset`, so for every argument
combination the expression raises AttributeError before resolving anything. -/
theorem c3_resolution_raises_attribute_error (preset : Option String)
    (custom : Option (List Int)) :
    main_resolve_nozzle_temps (argparseNamespace preset custom) =
      Except.error "AttributeError: nozzle_temps_custom" := by
  cases preset <;> cases custom <;> rfl

/-- C5 counterexample: the confirmation input "Y" makes the run proceed even
though "Y" is not in the affirmative set the claim names, refuting the claim's
left-to-right direction as stated. -/
theorem c5_confirmation_gate_counterexample :
    proceedsToValidation (main_after_resolution (some [230]) [] "Y") = true ∧
    "Y" ∉ AFFIRMATIVE_INPUTS := by
  constructor
  · decide
  · decide

/-- C5 (amended): the run proceeds past the confirmation gate if and only if
the lowercased input is in the affirmative set `y`, `yes`, the empty string,
or a single space; any input whose lowercasing is outside that set aborts the
run with exit signal 1 before any file is written. -/
theorem c5_confirmation_gate_lowercased (temps : List Int) (cands : List GcodeTemplate)
    (s : String) :
    (proceedsToValidation (main_after_resolution (some temps) cands s) = true ↔
      pyLower s ∈ AFFIRMATIVE_INPUTS) ∧
    (pyLower s ∉ AFFIRMATIVE_INPUTS →
      main_after_resolution (some temps) cands s = RunOutcome.aborted ∧
      outcomeWrites (main_after_resolution (some temps) cands s) = [] ∧
      outcomeExitCode (main_after_resolution (some temps) cands s) = 1) := by
  by_cases hm : pyLower s ∈ AFFIRMATIVE_INPUTS
  · refine ⟨⟨fun _ => hm, fun _ => ?_⟩, fun hn => absurd hm hn⟩
    cases hv : validate_gcode_templates cands
    · rw [main_gate_validation_failed temps cands s hm hv]
      rfl
    · rw [main_gate_render temps cands s hm hv]
      rfl
  · rw [main_gate_abort temps cands s hm]
    exact ⟨⟨fun hp => absurd hp (by decide), fun hp => absurd hp hm⟩,
      fun _ => ⟨rfl, rfl, rfl⟩⟩

/-- C6: when the gate passes but validation reports not ok, the orchestrator
ends in the validation-failed state carrying both itemized violation lists,
returns exit signal 1, and writes no file (the renderer is never invoked). -/
theorem c6_validation_gates_rendering (temps : List Int) (cands : List GcodeTemplate)
    (s : String) (h : pyLower s ∈ AFFIRMATIVE_INPUTS)
    (hv : validate_gcode_templates cands = false) :
    main_after_resolution (some temps) cands s =
      RunOutcome.validationFailed (validate_gcode_template_filenames cands)
        (validate_gcode_template_contents cands) ∧
    outcomeWrites (main_after_resolution (some temps) cands s) = [] ∧
    outcomeExitCode (main_after_resolution (some temps) cands s) = 1 := by
  have he := main_gate_validation_failed temps cands s h hv
  rw [he]
  exact ⟨rfl, rfl, rfl⟩

/-- C6 witness: a run confirmed with the empty input on one candidate whose
name lacks the placeholder token. -/
theorem c6_validation_gates_rendering_witness :
    main_after_resolution (some [230]) [⟨"bad.gtemplate", "x"⟩] "" =
      RunOutcome.validationFailed
        (validate_gcode_template_filenames [⟨"bad.gtemplate", "x"⟩])
        (validate_gcode_template_contents [⟨"bad.gtemplate", "x"⟩]) ∧
    outcomeWrites (main_after_resolution (some [230]) [⟨"bad.gtemplate", "x"⟩] "") = [] ∧
    outcomeExitCode (main_after_resolution (some [230]) [⟨"bad.gtemplate", "x"⟩] "") = 1 :=
  c6_validation_gates_rendering [230] [⟨"bad.gtemplate", "x"⟩] "" (by decide) (by decide)

/-- C7: if the resolved temperature source is None (no truthy custom list and
the preset lookup yields nothing), the run raises ValueError at once: the
outcome does not depend on the discovered candidates or on any interactive
input, and no file is written. -/
theorem c7_empty_resolution_fails_loudly (temps_custom : Option (List Int))
    (temps_preset : Option String) (cands : List GcodeTemplate) (s : String)
    (h : resolved_nozzle_temps temps_custom temps_preset = none) :
    main_after_resolution (resolved_nozzle_temps temps_custom temps_preset) cands s =
      RunOutcome.valueError ∧
    outcomeWrites
      (main_after_resolution (resolved_nozzle_temps temps_custom temps_preset) cands s) = [] ∧
    (∀ (cands' : List GcodeTemplate) (s' : String),
      main_after_resolution (resolved_nozzle_temps temps_custom temps_preset) cands' s' =
        main_after_resolution (resolved_nozzle_temps temps_custom temps_preset) cands s) := by
  rw [h]
  exact ⟨rfl, rfl, fun _ _ => rfl⟩

/-- C7 witness: no custom list and an identifier absent from the preset table. -/
theorem c7_empty_resolution_fails_loudly_witness :
    main_after_resolution (resolved_nozzle_temps none (some "ABS")) [] "y" =
      RunOutcome.valueError ∧
    outcomeWrites (main_after_resolution (resolved_nozzle_temps none (some "ABS")) [] "y") = [] ∧
    (∀ (cands' : List GcodeTemplate) (s' : String),
      main_after_resolution (resolved_nozzle_temps none (some "ABS")) cands' s' =
        main_after_resolution (resolved_nozzle_temps none (some "ABS")) [] "y") :=
  c7_empty_resolution_fails_loudly none (some "ABS") [] "y" (by decide)

/-- C10: the confirmation gate lowercases the input before comparing it with
the lowercase affirmative set: the outcome depends only on the lowercased
input, passing the gate is exactly membership of the lowercased input in that
set, and the inputs Y, YES and Yes all proceed. -/
theorem c10_confirmation_gate_case_insensitive (temps : List Int)
    (cands : List GcodeTemplate) :
    (∀ s s' : String, pyLower s = pyLower s' →
      main_after_resolution (some temps) cands s = main_after_resolution (some temps) cands s') ∧
    (∀ s : String, proceedsToValidation (main_after_resolution (some temps) cands s) =
      AFFIRMATIVE_INPUTS.contains (pyLower s)) ∧
    proceedsToValidation (main_after_resolution (some [230]) [] "Y") = true ∧
    proceedsToValidation (main_after_resolution (some [230]) [] "YES") = true ∧
    proceedsToValidation (main_after_resolution (some [230]) [] "Yes") = true := by
  refine ⟨fun s s' hss => ?_, fun s => ?_, by decide, by decide, by decide⟩
  · simp only [main_after_resolution, hss]
  · by_cases hm : pyLower s ∈ AFFIRMATIVE_INPUTS
    · rw [(affirmative_contains_iff _).2 hm]
      cases hv : validate_gcode_templates cands
      · rw [main_gate_validation_failed temps cands s hm hv]
        rfl
      · rw [main_gate_render temps cands s hm hv]
        rfl
    · have hc : AFFIRMATIVE_INPUTS.contains (pyLower s) = false := by
        cases hb : AFFIRMATIVE_INPUTS.contains (pyLower s)
        · rfl
        · exact absurd ((affirmative_contains_iff _).1 hb) hm
      rw [hc, main_gate_abort temps cands s hm]
      rfl

/-- C1: for every template candidate (a name carrying the template suffix) and
every integer temperature, the rendered pair has content equal to the template
content with every literal occurrence of the placeholder token replaced by `S`
followed by the decimal temperature, and name equal to the template's stem
with every occurrence of the token replaced by the decimal temperature
followed by `C` and the extension forced to `.gcode`; in particular the
template part_##NOZZLETEMP##_v1.gtemplate with content
`M104 ##NOZZLETEMP## ; set temp` rendered at 230 yields the file
part_230C_v1.gcode with content `M104 S230 ; set temp`. -/
theorem c1_substitution_correctness (t : GcodeTemplate) (temp : Int)
    (h : GCODE_TEMPLATE_SUFFIX.data <:+ t.name.data) :
    renderOutputs [t] [temp] =
      [(pyWithSuffixName
          (pyReplace (pyStem t.name) NOZZLE_TEMP_TEMPLATE_TEXT (toString temp ++ "C"))
          GCODE_SUFFIX,
        pyReplace t.content NOZZLE_TEMP_TEMPLATE_TEXT ("S" ++ toString temp))] ∧
    renderOutputs [⟨"part_##NOZZLETEMP##_v1.gtemplate", "M104 ##NOZZLETEMP## ; set temp"⟩]
        [230] = [("part_230C_v1.gcode", "M104 S230 ; set temp")] :=
  ⟨rfl, by decide⟩

/-- C1 witness: the theorem applied to the concrete template of the claim. -/
theorem c1_substitution_correctness_witness :
    renderOutputs [⟨"part_##NOZZLETEMP##_v1.gtemplate", "M104 ##NOZZLETEMP## ; set temp"⟩]
        [230] =
      [(pyWithSuffixName
          (pyReplace (pyStem "part_##NOZZLETEMP##_v1.gtemplate") NOZZLE_TEMP_TEMPLATE_TEXT
            (toString (230 : Int) ++ "C"))
          GCODE_SUFFIX,
        pyReplace "M104 ##NOZZLETEMP## ; set temp" NOZZLE_TEMP_TEMPLATE_TEXT
          ("S" ++ toString (230 : Int)))] ∧
    renderOutputs [⟨"part_##NOZZLETEMP##_v1.gtemplate", "M104 ##NOZZLETEMP## ; set temp"⟩]
        [230] = [("part_230C_v1.gcode", "M104 S230 ; set temp")] :=
  c1_substitution_correctness ⟨"part_##NOZZLETEMP##_v1.gtemplate",
    "M104 ##NOZZLETEMP## ; set temp"⟩ 230 (by decide)

/-- C4: for a valid candidate set and a non-empty temperature sequence the
renderer performs one write per (candidate, temperature) pair — the write list
is the map of the cross product — and both the write-operation count and the
expected count printed before writing equal the product of the two lengths. -/
theorem c4_render_count (gcode_templates : List GcodeTemplate) (nozzle_temps : List Int)
    (output : String) (hv : validate_gcode_templates gcode_templates = true)
    (hne : nozzle_temps ≠ []) :
    renderOutputs gcode_templates nozzle_temps =
      (gcode_templates.product nozzle_temps).map
        (fun p => (renderedFilename p.1.name p.2, renderedContent p.1.content p.2)) ∧
    (renderWrites output gcode_templates nozzle_temps).length =
      expected_render_count gcode_templates nozzle_temps ∧
    (renderOutputs gcode_templates nozzle_temps).length =
      gcode_templates.length * nozzle_temps.length := by
  have hprod : renderOutputs gcode_templates nozzle_temps =
      (gcode_templates.product nozzle_temps).map
        (fun p => (renderedFilename p.1.name p.2, renderedContent p.1.content p.2)) := by
    unfold renderOutputs List.product
    rw [List.map_flatMap]
    simp [List.map_map, Function.comp_def]
  have hlen : (renderOutputs gcode_templates nozzle_temps).length =
      gcode_templates.length * nozzle_temps.length := by
    rw [hprod, List.length_map]
    exact List.length_product gcode_templates nozzle_temps
  refine ⟨hprod, ?_, hlen⟩
  unfold renderWrites expected_render_count
  rw [List.length_map, hlen]

/-- C4 witness: one valid template and one temperature. -/
theorem c4_render_count_witness :
    renderOutputs [⟨"part_##NOZZLETEMP##_v1.gtemplate", "M104 ##NOZZLETEMP## ; set temp"⟩]
        [230] =
      (([⟨"part_##NOZZLETEMP##_v1.gtemplate", "M104 ##NOZZLETEMP## ; set temp"⟩] :
          List GcodeTemplate).product [230]).map
        (fun p => (renderedFilename p.1.name p.2, renderedContent p.1.content p.2)) ∧
    (renderWrites "out"
        [⟨"part_##NOZZLETEMP##_v1.gtemplate", "M104 ##NOZZLETEMP## ; set temp"⟩]
        [230]).length =
      expected_render_count
        [⟨"part_##NOZZLETEMP##_v1.gtemplate", "M104 ##NOZZLETEMP## ; set temp"⟩] [230] ∧
    (renderOutputs [⟨"part_##NOZZLETEMP##_v1.gtemplate", "M104 ##NOZZLETEMP## ; set temp"⟩]
        [230]).length = 1 * 1 :=
  c4_render_count [⟨"part_##NOZZLETEMP##_v1.gtemplate", "M104 ##NOZZLETEMP## ; set temp"⟩]
    [230] "out" (by decide) (by decide)

/-- C9: a render is idempotent on the file store: rendering the same
candidates, temperatures and output directory a second time (or any further
number of times) overwrites the previously written files and leaves the
store exactly as after the first render. -/
theorem c9_render_idempotent (gcode_templates : List GcodeTemplate) (nozzle_temps : List Int)
    (output : String) (fs : String → Option String) :
    render_gcode_templates gcode_templates nozzle_temps output
        (render_gcode_templates gcode_templates nozzle_temps output fs) =
      render_gcode_templates gcode_templates nozzle_temps output fs ∧
    ∀ n : Nat,
      (fun g => render_gcode_templates gcode_templates nozzle_temps output g)^[n + 1] fs =
        render_gcode_templates gcode_templates nozzle_temps output fs := by
  have hidem : ∀ g : String → Option String,
      render_gcode_templates gcode_templates nozzle_temps output
        (render_gcode_templates gcode_templates nozzle_temps output g) =
      render_gcode_templates gcode_templates nozzle_temps output g := by
    intro g
    funext p
    unfold render_gcode_templates
    rw [applyWrites_apply, applyWrites_apply]
    cases h : lastWrite (renderWrites output gcode_templates nozzle_temps) p <;> simp [h]
  refine ⟨hidem fs, ?_⟩
  intro n
  induction n with
  | zero => simp [Function.iterate_one]
  | succ n ih => rw [Function.iterate_succ_apply', ih, hidem]

theorem filename_errors_nil_iff (ts : List GcodeTemplate) :
    validate_gcode_template_filenames ts = [] ↔
      ∀ t ∈ ts, NOZZLE_TEMP_TEMPLATE_TEXT.data <:+: t.name.data := by
  unfold validate_gcode_template_filenames
  rw [List.map_eq_nil_iff, List.filter_eq_nil_iff]
  constructor
  · intro h t ht
    have h2 := h t ht
    cases hb : pyContains t.name NOZZLE_TEMP_TEMPLATE_TEXT
    · have hb2 : (!pyContains t.name NOZZLE_TEMP_TEMPLATE_TEXT) = true := by rw [hb]; rfl
      exact absurd hb2 h2
    · exact (pyContains_eq_true_iff _ _).1 hb
  · intro h t ht h2
    have hb : pyContains t.name NOZZLE_TEMP_TEMPLATE_TEXT = true :=
      (pyContains_eq_true_iff _ _).2 (h t ht)
    rw [hb] at h2
    exact absurd h2 (by decide)

theorem content_errors_nil_iff (ts : List GcodeTemplate) :
    validate_gcode_template_contents ts = [] ↔
      ∀ t ∈ ts,
        (NOZZLE_TEMP_CGODE_COMMAND ++ " " ++ NOZZLE_TEMP_TEMPLATE_TEXT).data <:+:
          t.content.data := by
  unfold validate_gcode_template_contents
  rw [List.map_eq_nil_iff, List.filter_eq_nil_iff]
  constructor
  · intro h t ht
    have h2 := h t ht
    cases hb : pyContains t.content (NOZZLE_TEMP_CGODE_COMMAND ++ " " ++ NOZZLE_TEMP_TEMPLATE_TEXT)
    · have hb2 : (!pyContains t.content
          (NOZZLE_TEMP_CGODE_COMMAND ++ " " ++ NOZZLE_TEMP_TEMPLATE_TEXT)) = true := by
        rw [hb]; rfl
      exact absurd hb2 h2
    · exact (pyContains_eq_true_iff _ _).1 hb
  · intro h t ht h2
    have hb : pyContains t.content
        (NOZZLE_TEMP_CGODE_COMMAND ++ " " ++ NOZZLE_TEMP_TEMPLATE_TEXT) = true :=
      (pyContains_eq_true_iff _ _).2 (h t ht)
    rw [hb] at h2
    exact absurd h2 (by decide)

theorem validate_true_iff (ts : List GcodeTemplate) :
    validate_gcode_templates ts = true ↔
      (∀ t ∈ ts, NOZZLE_TEMP_TEMPLATE_TEXT.data <:+: t.name.data) ∧
      (∀ t ∈ ts,
        (NOZZLE_TEMP_CGODE_COMMAND ++ " " ++ NOZZLE_TEMP_TEMPLATE_TEXT).data <:+:
          t.content.data) := by
  unfold validate_gcode_templates
  rw [Bool.and_eq_true, List.isEmpty_iff, List.isEmpty_iff,
    filename_errors_nil_iff, content_errors_nil_iff]

/-- C2: validation reports not ok exactly when some candidate's name lacks the
placeholder token or some candidate's content lacks `M104 ##NOZZLETEMP##`;
both violation lists are computed over the full candidate set (every violator
appears), preserve input order (each list is a sublist of the input's name
list), and keep duplicates (the multiplicity of a name in a list equals the
number of violating candidates carrying that name). -/
theorem c2_validator_exhaustive (gcode_templates : List GcodeTemplate) :
    (validate_gcode_templates gcode_templates = false ↔
      (∃ t ∈ gcode_templates, ¬ NOZZLE_TEMP_TEMPLATE_TEXT.data <:+: t.name.data) ∨
      (∃ t ∈ gcode_templates,
        ¬ (NOZZLE_TEMP_CGODE_COMMAND ++ " " ++ NOZZLE_TEMP_TEMPLATE_TEXT).data <:+:
            t.content.data)) ∧
    (validate_gcode_template_filenames gcode_templates).Sublist
      (gcode_templates.map (fun t => t.name)) ∧
    (validate_gcode_template_contents gcode_templates).Sublist
      (gcode_templates.map (fun t => t.name)) ∧
    (∀ t ∈ gcode_templates, ¬ NOZZLE_TEMP_TEMPLATE_TEXT.data <:+: t.name.data →
      t.name ∈ validate_gcode_template_filenames gcode_templates) ∧
    (∀ t ∈ gcode_templates,
      ¬ (NOZZLE_TEMP_CGODE_COMMAND ++ " " ++ NOZZLE_TEMP_TEMPLATE_TEXT).data <:+:
          t.content.data →
      t.name ∈ validate_gcode_template_contents gcode_templates) ∧
    (∀ n : String, (validate_gcode_template_filenames gcode_templates).count n =
      gcode_templates.countP
        (fun t => (t.name == n) && !pyContains t.name NOZZLE_TEMP_TEMPLATE_TEXT)) ∧
    (∀ n : String, (validate_gcode_template_contents gcode_templates).count n =
      gcode_templates.countP
        (fun t => (t.name == n) && !pyContains t.content
          (NOZZLE_TEMP_CGODE_COMMAND ++ " " ++ NOZZLE_TEMP_TEMPLATE_TEXT))) := by
  refine ⟨?_, List.Sublist.map _ (List.filter_sublist _),
    List.Sublist.map _ (List.filter_sublist _), ?_, ?_, ?_, ?_⟩
  · constructor
    · intro hf
      by_contra hn
      push_neg at hn
      have ht : validate_gcode_templates gcode_templates = true :=
        (validate_true_iff _).2 ⟨hn.1, hn.2⟩
      rw [ht] at hf
      exact absurd hf (by decide)
    · intro hor
      cases hb : validate_gcode_templates gcode_templates
      · rfl
      · have h := (validate_true_iff _).1 hb
        rcases hor with ⟨t, ht, hn⟩ | ⟨t, ht, hn⟩
        · exact absurd (h.1 t ht) hn
        · exact absurd (h.2 t ht) hn
  · intro t ht hn
    refine List.mem_map.2 ⟨t, List.mem_filter.2 ⟨ht, ?_⟩, rfl⟩
    cases hb : pyContains t.name NOZZLE_TEMP_TEMPLATE_TEXT
    · rfl
    · exact absurd ((pyContains_eq_true_iff _ _).1 hb) hn
  · intro t ht hn
    refine List.mem_map.2 ⟨t, List.mem_filter.2 ⟨ht, ?_⟩, rfl⟩
    cases hb : pyContains t.content (NOZZLE_TEMP_CGODE_COMMAND ++ " " ++ NOZZLE_TEMP_TEMPLATE_TEXT)
    · rfl
    · exact absurd ((pyContains_eq_true_iff _ _).1 hb) hn
  · intro n
    unfold validate_gcode_template_filenames
    rw [List.count_eq_countP, List.countP_map, List.countP_filter]
    rfl
  · intro n
    unfold validate_gcode_template_contents
    rw [List.count_eq_countP, List.countP_map, List.countP_filter]
    rfl

theorem renderedFilename_no_slash (name : String) (temp : Int) (h : '/' ∉ name.data) :
    '/' ∉ (renderedFilename name temp).data := by
  intro hmem
  unfold renderedFilename at hmem
  obtain ⟨pre, hpre, hsub⟩ := pyWithSuffixName_decompose
    (pyReplace (pyStem name) NOZZLE_TEMP_TEMPLATE_TEXT (toString temp ++ "C")) GCODE_SUFFIX
  rw [hpre] at hmem
  rcases List.mem_append.1 hmem with hm | hm
  · rcases mem_pyReplace _ _ _ _ (hsub hm) with h1 | h1
    · exact h (pyStem_data_subset name h1)
    · rw [String.data_append] at h1
      rcases List.mem_append.1 h1 with h2 | h2
      · exact intToString_ne_slash temp '/' h2 rfl
      · exact absurd h2 (by decide)
  · exact absurd hm (by decide)

/-- C8: rendering only writes files directly inside the output directory whose
names are slash-free and end in `.gcode`; consequently every path ending in
`.gtemplate` — every template file, wherever it lives — is left untouched by
the render: templates are read-only. -/
theorem c8_templates_read_only (gcode_templates : List GcodeTemplate) (nozzle_temps : List Int)
    (output : String) (fs : String → Option String)
    (hslash : ∀ t ∈ gcode_templates, '/' ∉ t.name.data) :
    (∀ w ∈ renderWrites output gcode_templates nozzle_temps, ∃ n : String,
        w.1 = output ++ "/" ++ n ∧ '/' ∉ n.data ∧ GCODE_SUFFIX.data <:+ n.data) ∧
    (∀ p : String, GCODE_TEMPLATE_SUFFIX.data <:+ p.data →
        render_gcode_templates gcode_templates nozzle_temps output fs p = fs p) := by
  have hshape : ∀ w ∈ renderWrites output gcode_templates nozzle_temps, ∃ n : String,
      w.1 = output ++ "/" ++ n ∧ '/' ∉ n.data ∧ GCODE_SUFFIX.data <:+ n.data := by
    intro w hw
    unfold renderWrites at hw
    obtain ⟨o, ho, rfl⟩ := List.mem_map.1 hw
    unfold renderOutputs at ho
    obtain ⟨t, ht, ho2⟩ := List.mem_flatMap.1 ho
    obtain ⟨temp, -, rfl⟩ := List.mem_map.1 ho2
    exact ⟨renderedFilename t.name temp, rfl,
      renderedFilename_no_slash t.name temp (hslash t ht),
      gcode_suffix_of_withSuffix _⟩
  refine ⟨hshape, ?_⟩
  intro p hp
  unfold render_gcode_templates
  apply applyWrites_not_written
  intro w hw heq
  obtain ⟨n, hw1, -, hn⟩ := hshape w hw
  have hsuf : GCODE_SUFFIX.data <:+ p.data := by
    rw [heq, hw1, String.data_append]
    exact hn.trans (List.suffix_append _ _)
  rcases List.suffix_or_suffix_of_suffix hsuf hp with hcase | hcase
  · exact absurd hcase (by decide)
  · exact absurd hcase (by decide)

/-- C8 witness: one realistic candidate, one temperature, a concrete output
directory and the empty file store. -/
theorem c8_templates_read_only_witness :
    (∀ w ∈ renderWrites "out"
        [⟨"part_##NOZZLETEMP##_v1.gtemplate", "M104 ##NOZZLETEMP## ; set temp"⟩] [230],
      ∃ n : String,
        w.1 = "out" ++ "/" ++ n ∧ '/' ∉ n.data ∧ GCODE_SUFFIX.data <:+ n.data) ∧
    (∀ p : String, GCODE_TEMPLATE_SUFFIX.data <:+ p.data →
        render_gcode_templates
          [⟨"part_##NOZZLETEMP##_v1.gtemplate", "M104 ##NOZZLETEMP## ; set temp"⟩] [230]
          "out" (fun _ => none) p = (fun _ => (none : Option String)) p) :=
  c8_templates_read_only
    [⟨"part_##NOZZLETEMP##_v1.gtemplate", "M104 ##NOZZLETEMP## ; set temp"⟩] [230]
    "out" (fun _ => none) (by decide)

end GTemp
